import Mathlib

/-!
Verification of the tRPC-Go client invocation pipeline (`client/client.go`,
`naming/registry` Node, `internal/codec` validity checks).

The Go code is shallowly embedded as Lean functions.  Mutable per-call state
(the context-bound `Msg`, the response body object, the wall clock, and the
trace of calls to external collaborators) is threaded explicitly through a
state record `St`.  External collaborators — the selector, the transport, the
codec, and the serializer/compressor registries — are modelled as oracle
functions carried either by `Options` (as in the source, where they are
fields of the per-call options) or by an environment record `Env` (for the
global registries).  Each invocation of an external collaborator appends an
`Event` to the trace, so that claims of the form "X is (not) invoked" become
statements about the trace.

Go maps are modelled as association lists, byte slices as `List Nat`, Go
`error` values as `Option GoErr` (with `none` for nil), `*errs.Error` values
as the `GoErr.errsErr` constructor and all other error values as
`GoErr.other`.  The filter chain is modelled as a list of `FilterCode`s
interpreted into filter functions: the distinguished code
`FilterCode.selector` denotes the selector filter defined below, and
`FilterCode.user n` denotes the n-th user interceptor, supplied as an
arbitrary function family when the chain is run.  Time is an integer clock in
`St`; oracles report the time they consume.
-/

namespace TrpcClient

/-- Decidable equality for `Except`, needed to evaluate the embedded
pipeline stages on concrete inputs. -/
instance {ε : Type u} {α : Type v} [DecidableEq ε] [DecidableEq α] :
    DecidableEq (Except ε α) := fun a b =>
  match a, b with
  | Except.error e, Except.error f =>
    if h : e = f then isTrue (by rw [h])
    else isFalse (by intro hc; cases hc; exact h rfl)
  | Except.ok x, Except.ok y =>
    if h : x = y then isTrue (by rw [h])
    else isFalse (by intro hc; cases hc; exact h rfl)
  | Except.error _, Except.ok _ => isFalse (by intro hc; cases hc)
  | Except.ok _, Except.error _ => isFalse (by intro hc; cases hc)

/-! ### Error model (`errs` package; not under src/, constants and shapes
follow the spec's error taxonomy, §7). -/

/-- Framework/business error type tag `errs.ErrorTypeFramework`. -/
def ErrorTypeFramework : Nat := 1

/-- `errs.ErrorTypeBusiness`. -/
def ErrorTypeBusiness : Nat := 2

def RetClientTimeout : Int := 101
def RetClientFullLinkTimeout : Int := 102
def RetClientConnectFail : Int := 111
def RetClientEncodeFail : Int := 121
def RetClientDecodeFail : Int := 122
def RetClientRouteErr : Int := 131
def RetClientNetErr : Int := 141
def RetClientCanceled : Int := 161

/-- A `*errs.Error` value: type tag, numeric code, message. -/
structure FrameErr where
  etype : Nat
  code : Int
  emsg : String
deriving Repr, DecidableEq

/-- A non-nil Go `error` value: either a `*errs.Error` or some other error
(identified by its message, as produced by `errors.New`). -/
inductive GoErr where
  | errsErr (e : FrameErr)
  | other (s : String)
deriving Repr, DecidableEq

/-- A Go `error` variable: `none` is nil. -/
abbrev GoError := Option GoErr

/-- `errs.NewFrameError(code, msg)`. -/
def NewFrameError (code : Int) (msg : String) : GoErr :=
  GoErr.errsErr { etype := ErrorTypeFramework, code := code, emsg := msg }

/-- `errs.ErrClientNoResponse`, the send-only sentinel (`errors.New`). -/
def errClientNoResponse : GoErr := GoErr.other "client no response"

/-- Modelled from the spec (§4.6): the `fixTimeout` adapter installed when
the full-link deadline is the tighter bound; on observing a framework
`ClientTimeout` error it re-tags it as `ClientFullLinkTimeout`, and leaves
every other error (and nil) unchanged.  The function itself
(`mayConvert2FullLinkTimeout`) is referenced but not defined under src/. -/
def mayConvert2FullLinkTimeout (err : GoError) : GoError :=
  match err with
  | some (GoErr.errsErr e) =>
    if e.etype = ErrorTypeFramework ∧ e.code = RetClientTimeout then
      some (GoErr.errsErr { e with code := RetClientFullLinkTimeout })
    else err
  | _ => err

/-- Modelled from the spec (§4.6): the default per-call `fixTimeout` adapter
is the identity. -/
def defaultFixTimeout (err : GoError) : GoError := err

/-! ### Serialization/compress type validity (`internal/codec`). -/

/-- `codec.SerializationTypePB`, the protocol floor for serialization type
codes (constant defined in the codec package; the spec fixes only that it is
the floor). -/
def SerializationTypePB : Int := 0

/-- `codec.CompressTypeNoop`. -/
def CompressTypeNoop : Int := 0

/-- `icodec.IsValidSerializationType` (src/unnamed/part_001):
`t >= codec.SerializationTypePB`. -/
def IsValidSerializationType (t : Int) : Bool := SerializationTypePB ≤ t

/-- Modelled from the spec (§3 invariant (a)): compress type codes are valid
iff at least the protocol floor, here `CompressTypeNoop`; the function
`icodec.IsValidCompressType` is called from src/ but defined elsewhere. -/
def IsValidCompressType (t : Int) : Bool := CompressTypeNoop ≤ t

/-! ### Network addresses (`net` package, abstracted). -/

/-- A resolved `net.Addr` value. -/
inductive NetAddr where
  | tcpAddr (network host : String) (port : Nat)
  | udpAddr (network host : String) (port : Nat)
  | unixAddr (path : String)
deriving Repr, DecidableEq

/-- `net.Addr.String()`. -/
def netAddrString : NetAddr → String
  | NetAddr.tcpAddr _ host port => host ++ ":" ++ toString port
  | NetAddr.udpAddr _ host port => host ++ ":" ++ toString port
  | NetAddr.unixAddr path => path

/-- The Go `net` standard-library functions used by `ensureMsgRemoteAddr`,
abstracted as oracles: `none` stands for a non-nil error (for
`SplitHostPort`), a nil IP (for `ParseIP`), or a failed resolution. -/
structure NetLib where
  splitHostPort : String → Option (String × String)
  parseIP : String → Option String
  resolveTCPAddr : String → String → Option NetAddr
  resolveUDPAddr : String → String → Option NetAddr
  resolveUnixAddr : String → String → Option NetAddr

/-! ### Node (`naming/registry`, src/unnamed/part_000). -/

/-- `registry.Node`.  `metadata` is an association list. -/
structure Node where
  serviceName : String := ""
  containerName : String := ""
  address : String := ""
  network : String := ""
  protocol : String := ""
  setName : String := ""
  weight : Int := 0
  costTime : Int := 0
  envKey : String := ""
  metadata : List (String × String) := []
deriving Repr, DecidableEq

/-- `Node.String()` (src/unnamed/part_000); also used where the source
formats a node with `%+v` (the exact rendering is immaterial). -/
def nodeString (n : Node) : String :=
  "service:" ++ n.serviceName ++ ", addr:" ++ n.address ++ ", cost:" ++ toString n.costTime

/-! ### Option tags for selector and transport call options. -/

/-- `selector.Option` values appended by the client (tags only). -/
inductive SelectOption where
  | sourceNamespace (s : String)
  | sourceServiceName (s : String)
  | sourceEnvName (s : String)
  | envTransferOpt (s : String)
  | sourceSetName (s : String)
  | withContext
deriving Repr, DecidableEq

/-- `transport.RoundTripOption` values appended by the client (tags only). -/
inductive CallOption where
  | dialAddress (s : String)
  | dialNetwork (s : String)
  | withMsgOpt
  | withMultiplexed
deriving Repr, DecidableEq

/-- Codes naming the members of the filter chain: the distinguished selector
filter, or the n-th user interceptor. -/
inductive FilterCode where
  | selector
  | user (n : Nat)
deriving Repr, DecidableEq

/-- `DefaultSelectorFilterName` (name under which the selector filter is
recorded in `opts.FilterNames`). -/
def DefaultSelectorFilterName : String := "selector"

/-! ### Message (`codec.Msg`, the per-call mutable header record). -/

/-- The fields of `codec.Msg` read or written by the client code under
verification.  `commonMetaAttachment` models the single well-known
common-meta slot `attachment.ClientAttachmentKey`. -/
structure Msg where
  callerServiceName : String := ""
  calleeServiceName : String := ""
  calleeMethod : String := ""
  calleeContainerName : String := ""
  calleeSetName : String := ""
  msgNamespace : String := ""
  envName : String := ""
  envTransfer : String := ""
  setName : String := ""
  serializationType : Int := -1
  compressType : Int := 0
  requestTimeout : Int := 0
  remoteAddr : Option NetAddr := none
  clientRspErr : Option GoErr := none
  clientMetaData : List (String × String) := []
  commonMetaAttachment : Option String := none
  clientReqHead : Option String := none
  clientRspHead : Option String := none
  callType : Int := 0
deriving Repr, DecidableEq

/-! ### Events and per-call mutable state. -/

abbrev Buf := List Nat

/-- One invocation of an external collaborator, recorded in order. -/
inductive Event where
  | selectCalled (endpoint : String)
  | reportCalled (node : Node) (cost : Int) (err : GoError)
  | nodeInfoSet (addr : String) (cost : Int)
  | marshalCalled (t : Int)
  | compressCalled (t : Int)
  | encodeCalled
  | roundTripCalled
  | decodeCalled
  | decompressCalled (t : Int)
  | unmarshalCalled (t : Int)
deriving Repr, DecidableEq

/-- The per-call mutable world: the context-bound message, the caller's
response body object (mutated by unmarshalling), the wall clock, and the
trace of external invocations. -/
structure St where
  msg : Msg
  rspBody : String := ""
  clock : Int := 0
  events : List Event := []
deriving Repr, DecidableEq

/-- The selector reports recorded in a trace, in order. -/
def reportsOf (evs : List Event) : List (Node × Int × GoError) :=
  evs.filterMap (fun ev =>
    match ev with
    | Event.reportCalled n c e => some (n, c, e)
    | _ => none)

/-! ### External collaborator interfaces. -/

/-- The part of a Go context visible to collaborators: deadline and whether
cancellation was requested. -/
structure CtxView where
  deadline : Option Int
  canceled : Bool
deriving Repr, DecidableEq

/-- A selector plugin.  `select` returns the chosen node (or a plain error)
together with the time the selection consumed. -/
structure SelectorImpl where
  select : String → List SelectOption → Except String Node × Int

/-- A transport.  `roundTrip` takes the context view, the current clock, the
request frame, the call options and the message; it returns the response
frame or an error, the possibly-updated message, and the time consumed. -/
structure TransportImpl where
  roundTrip : CtxView → Int → Buf → List CallOption → Msg → Except GoErr Buf × Msg × Int

/-- A codec.  Both operations may mutate the message (e.g. `decode` sets
`ClientRspErr` from the response header). -/
structure CodecImpl where
  encode : Msg → Buf → Except String Buf × Msg
  decode : Msg → Buf → Except String Buf × Msg

/-! ### Options (per-call configuration snapshot). -/

/-- The fields of `client.Options` used by the code under verification.
Function-valued collaborators live here as in the source; the filter list is
a list of `FilterCode`s. -/
structure Options where
  serviceName : String := ""
  callerServiceName : String := ""
  calleeMethod : String := ""
  endpoint : String := ""
  target : String := ""
  network : String := ""
  timeout : Int := 0
  serializationType : Int := -1
  compressType : Int := 0
  currentSerializationType : Int := -1
  currentCompressType : Int := -1
  metaData : List (String × String) := []
  reqHead : Option String := none
  rspHead : Option String := none
  callType : Int := 0
  attachment : Option String := none
  filters : List FilterCode := []
  filterNames : List String := []
  disableFilter : Bool := false
  selectorFilterPosFixed : Bool := false
  disableServiceRouter : Bool := false
  enableMultiplexed : Bool := false
  fixTimeout : GoError → GoError := defaultFixTimeout
  shouldErrReportToSelector : GoError → Bool := fun _ => false
  codec : Option CodecImpl := none
  transport : TransportImpl
  selector : SelectorImpl
  selectOptions : List SelectOption := []
  callOptions : List CallOption := []

/-- A call-site `client.Option` (a function mutating the options). -/
abbrev GoOption := Options → Options

/-- A Go context as seen by this client: deadline, cancellation flag, the
immutable-options marker, and the attached options. -/
structure Ctx where
  deadline : Option Int := none
  canceled : Bool := false
  optionsImmutable : Bool := false
  opts : Options

def ctxView (ctx : Ctx) : CtxView := { deadline := ctx.deadline, canceled := ctx.canceled }

/-- `ctx.Err()` outcomes. -/
inductive CtxE where
  | canceled
  | deadlineExceeded
deriving Repr, DecidableEq

/-- `ctx.Err()` at a given clock: cancellation wins, then an expired
deadline. -/
def ctxErrAt (ctx : Ctx) (clock : Int) : Option CtxE :=
  if ctx.canceled then some CtxE.canceled
  else
    match ctx.deadline with
    | some d => if d ≤ clock then some CtxE.deadlineExceeded else none
    | none => none

/-- The global registries and standard-library functions: serializer and
compressor registries (`codec.Marshal` etc., keyed by integer type codes),
the `net` library, and the per-callee baseline options registry
(`getOptionsByCalleeAndUserOptions`, modelled from the spec §4.1 step 3 as a
lookup by callee service name; the registry itself is not under src/). -/
structure Env where
  marshal : Int → String → Except String Buf
  unmarshal : Int → Buf → String → Except String String
  compress : Int → Buf → Except String Buf
  decompress : Int → Buf → Except String Buf
  netlib : NetLib
  getOptionsByCallee : String → Options

/-- `filter.ClientHandleFunc`: the continuation type.  The response body is
part of `St`. -/
abbrev ClientHandleFunc := Ctx → String → St → GoError × St

/-- `filter.ClientFilter`. -/
abbrev ClientFilter := Ctx → String → ClientHandleFunc → St → GoError × St

/-! ### Remote-address resolution (`ensureMsgRemoteAddr`, client.go:486). -/

/-- The IP-family networks of the first switch in `ensureMsgRemoteAddr`. -/
def isIPFamilyNetwork (network : String) : Bool :=
  network == "tcp" || network == "tcp4" || network == "tcp6" ||
    network == "udp" || network == "udp4" || network == "udp6"

/-- `ensureMsgRemoteAddr` (client.go:486-512).  If the remote address is
already set, return.  For IP-family networks, return without setting when the
address does not split as host:port or the host is not a literal IP.
Otherwise resolve per network; `WithRemoteAddr` receives the resolution
result, which is `none` when resolution failed. -/
def ensureMsgRemoteAddr (lib : NetLib) (msg : Msg) (network address : String) : Msg :=
  if msg.remoteAddr.isSome then msg
  else if isIPFamilyNetwork network &&
      (match lib.splitHostPort address with
       | none => true
       | some (host, _) => (lib.parseIP host).isNone) then msg
  else
    let addr : Option NetAddr :=
      if network = "tcp" ∨ network = "tcp4" ∨ network = "tcp6" then
        lib.resolveTCPAddr network address
      else if network = "udp" ∨ network = "udp4" ∨ network = "udp6" then
        lib.resolveUDPAddr network address
      else if network = "unix" then
        lib.resolveUnixAddr network address
      else
        lib.resolveTCPAddr "tcp4" address
    { msg with remoteAddr := addr }

/-- Modelled from the spec (§4.3 step 3): the helper the selector filter
uses to pick the node's network with the options network as fallback — the
first non-empty string; `findFirstNonEmpty` is called from src/ but defined
in an internal package outside it. -/
def findFirstNonEmpty (a b : String) : String := if a ≠ "" then a else b

/-! ### Request-path byte pipeline (`serializeAndCompress`, client.go:350). -/

/-- The effective serialization type (client.go:355-359 and 334-337):
`opts.CurrentSerializationType` when valid, else the message's type. -/
def requestSerializationType (msg : Msg) (opts : Options) : Int :=
  if IsValidSerializationType opts.currentSerializationType then
    opts.currentSerializationType
  else msg.serializationType

/-- The effective compress type (client.go:374-377 and 319-322):
`opts.CurrentCompressType` when valid, else the message's type. -/
def requestCompressType (msg : Msg) (opts : Options) : Int :=
  if IsValidCompressType opts.currentCompressType then
    opts.currentCompressType
  else msg.compressType

/-- The marshal stage of `serializeAndCompress` (client.go:352-370): marshal
only when the effective type is valid; otherwise the body buffer stays nil
(here `[]`) with a nil error.  A marshal failure becomes
`ClientEncodeFail`. -/
def marshalRequest (env : Env) (opts : Options) (reqBody : String) (st : St) :
    Except GoErr Buf × St :=
  let sType := requestSerializationType st.msg opts
  if IsValidSerializationType sType then
    let st1 : St := { st with events := st.events ++ [Event.marshalCalled sType] }
    match env.marshal sType reqBody with
    | Except.error e =>
      (Except.error (NewFrameError RetClientEncodeFail ("client codec Marshal: " ++ e)), st1)
    | Except.ok buf => (Except.ok buf, st1)
  else (Except.ok [], st)

/-- The compress stage of `serializeAndCompress` (client.go:372-385):
compress whenever the effective compress type is valid and not noop — the
buffer contents are never consulted.  A compress failure becomes
`ClientEncodeFail`. -/
def compressRequest (env : Env) (opts : Options) (buf : Buf) (st : St) :
    Except GoErr Buf × St :=
  let cType := requestCompressType st.msg opts
  if IsValidCompressType cType && (cType != CompressTypeNoop) then
    let st1 : St := { st with events := st.events ++ [Event.compressCalled cType] }
    match env.compress cType buf with
    | Except.error e =>
      (Except.error (NewFrameError RetClientEncodeFail ("client codec Compress: " ++ e)), st1)
    | Except.ok buf2 => (Except.ok buf2, st1)
  else (Except.ok buf, st)

/-- `serializeAndCompress` (client.go:350-386): marshal stage then compress
stage, stopping at the first error. -/
def serializeAndCompress (env : Env) (opts : Options) (reqBody : String) (st : St) :
    Except GoErr Buf × St :=
  match marshalRequest env opts reqBody st with
  | (Except.error e, st1) => (Except.error e, st1)
  | (Except.ok buf, st1) => compressRequest env opts buf st1

/-- `prepareRequestBuf` (client.go:276-298): serialize and compress, then
encode the protocol head.  The caller has already established that the codec
is non-nil and passes it in. -/
def prepareRequestBuf (env : Env) (cdc : CodecImpl) (opts : Options) (reqBody : String)
    (st : St) : Except GoErr Buf × St :=
  match serializeAndCompress env opts reqBody st with
  | (Except.error e, st1) => (Except.error e, st1)
  | (Except.ok bodyBuf, st1) =>
    match cdc.encode st1.msg bodyBuf with
    | (res, msg2) =>
      let st2 : St := { st1 with msg := msg2, events := st1.events ++ [Event.encodeCalled] }
      match res with
      | Except.error e =>
        (Except.error (NewFrameError RetClientEncodeFail ("client codec Encode: " ++ e)), st2)
      | Except.ok reqBuf => (Except.ok reqBuf, st2)

/-! ### Response-path byte pipeline (`processResponseBuf`, client.go:300). -/

/-- `processResponseBuf` (client.go:300-348): a non-nil `ClientRspErr` wins
and short-circuits; an empty body buffer returns nil; otherwise decompress
(when the effective compress type is valid and not noop) and unmarshal (when
the effective serialization type is valid) into the response body. -/
def processResponseBuf (env : Env) (opts : Options) (rspBodyBuf : Buf) (st : St) :
    GoError × St :=
  match st.msg.clientRspErr with
  | some e => (some e, st)
  | none =>
    if rspBodyBuf = [] then (none, st)
    else
      let cType := requestCompressType st.msg opts
      let decompressed : Except String Buf × St :=
        if IsValidCompressType cType && (cType != CompressTypeNoop) then
          (env.decompress cType rspBodyBuf,
           { st with events := st.events ++ [Event.decompressCalled cType] })
        else (Except.ok rspBodyBuf, st)
      match decompressed with
      | (Except.error e, st1) =>
        (some (NewFrameError RetClientDecodeFail ("client codec Decompress: " ++ e)), st1)
      | (Except.ok buf, st1) =>
        let sType := requestSerializationType st1.msg opts
        if IsValidSerializationType sType then
          let st2 : St := { st1 with events := st1.events ++ [Event.unmarshalCalled sType] }
          match env.unmarshal sType buf st2.rspBody with
          | Except.error e =>
            (some (NewFrameError RetClientDecodeFail ("client codec Unmarshal: " ++ e)), st2)
          | Except.ok newBody => (none, { st2 with rspBody := newBody })
        else (none, st1)

/-! ### Terminal handler (`callFunc`, client.go:231). -/

/-- The call options actually passed to the transport (client.go:250-252):
with multiplexing enabled, `WithMsg` and `WithMultiplexed` are appended. -/
def effectiveCallOptions (opts : Options) : List CallOption :=
  if opts.enableMultiplexed then
    opts.callOptions ++ [CallOption.withMsgOpt, CallOption.withMultiplexed]
  else opts.callOptions

/-- The body of `callFunc` (client.go:231-274) before the deferred
`fixTimeout` post-processing: codec-empty check, request preparation,
transport round trip with the `ErrClientNoResponse` sentinel, protocol-head
decode, and response processing. -/
def callFuncRaw (env : Env) (ctx : Ctx) (reqBody : String) (st : St) : GoError × St :=
  let opts := ctx.opts
  match opts.codec with
  | none => (some (NewFrameError RetClientEncodeFail "client: codec empty"), st)
  | some cdc =>
    match prepareRequestBuf env cdc opts reqBody st with
    | (Except.error e, st1) => (some e, st1)
    | (Except.ok reqBuf, st1) =>
      match opts.transport.roundTrip (ctxView ctx) st1.clock reqBuf
          (effectiveCallOptions opts) st1.msg with
      | (rres, msg2, dt) =>
        let st2 : St := { st1 with
          msg := msg2
          clock := st1.clock + dt
          events := st1.events ++ [Event.roundTripCalled] }
        match rres with
        | Except.error e => if e = errClientNoResponse then (none, st2) else (some e, st2)
        | Except.ok rspBuf =>
          match cdc.decode st2.msg rspBuf with
          | (dres, msg3) =>
            let st3 : St := { st2 with
              msg := msg3
              events := st2.events ++ [Event.decodeCalled] }
            match dres with
            | Except.error e =>
              (some (NewFrameError RetClientDecodeFail ("client codec Decode: " ++ e)), st3)
            | Except.ok rspBodyBuf => processResponseBuf env opts rspBodyBuf st3

/-- `callFunc` (client.go:231-274).  The deferred closure
`err = opts.fixTimeout(err)` post-processes every return value, nil
included. -/
def callFunc (env : Env) : ClientHandleFunc := fun ctx reqBody st =>
  match callFuncRaw env ctx reqBody st with
  | (err, st1) => (ctx.opts.fixTimeout err, st1)

/-! ### Node selection (`getNode`/`selectNode`, client.go:436-484). -/

/-- `getNode` (client.go:474-484): a selector error or an empty node address
is a `ClientRouteErr`. -/
def getNode (opts : Options) (st : St) : Except GoErr Node × St :=
  match opts.selector.select opts.endpoint opts.selectOptions with
  | (res, dt) =>
    let st1 : St := { st with
      clock := st.clock + dt
      events := st.events ++ [Event.selectCalled opts.endpoint] }
    match res with
    | Except.error e =>
      (Except.error (NewFrameError RetClientRouteErr ("client Select: " ++ e)), st1)
    | Except.ok node =>
      if node.address = "" then
        (Except.error (NewFrameError RetClientRouteErr
          ("client Select: node address empty:" ++ nodeString node)), st1)
      else (Except.ok node, st1)

/-- Modelled from the spec (§4.3 step 2): `Options.LoadNodeConfig` (defined
outside src/) pushes per-node dial configuration into the options; it does
not touch the fields the claims depend on (fixTimeout, selector, endpoint,
shouldErrReportToSelector, filters). -/
def loadNodeConfig (opts : Options) (node : Node) : Options :=
  { opts with callOptions := opts.callOptions ++
      [CallOption.dialAddress node.address, CallOption.dialNetwork node.network] }

/-- `selectNode` (client.go:436-472): append `WithContext`, select, load the
node config into the options, push container/set names into the message,
copy `EnvKey` when no env-transfer is set, clear env-transfer when the
service router is disabled, then re-check the context (`Canceled →
ClientCanceled`, `DeadlineExceeded → ClientTimeout`).  Since the options are
mutated through a pointer in Go, the updated options value is returned. -/
def selectNode (ctx : Ctx) (opts : Options) (st : St) :
    Except GoErr Node × Options × St :=
  let opts1 : Options :=
    { opts with selectOptions := opts.selectOptions ++ [SelectOption.withContext] }
  match getNode opts1 st with
  | (Except.error e, st1) => (Except.error e, opts1, st1)
  | (Except.ok node, st1) =>
    let opts2 := loadNodeConfig opts1 node
    let msg1 := { st1.msg with
      calleeContainerName := node.containerName
      calleeSetName := node.setName }
    let msg2 := if msg1.envTransfer = "" then { msg1 with envTransfer := node.envKey } else msg1
    let msg3 := if opts2.disableServiceRouter then { msg2 with envTransfer := "" } else msg2
    let st2 : St := { st1 with msg := msg3 }
    match ctxErrAt ctx st2.clock with
    | some CtxE.canceled =>
      (Except.error (NewFrameError RetClientCanceled
        "selector canceled after Select: context canceled"), opts2, st2)
    | some CtxE.deadlineExceeded =>
      (Except.error (NewFrameError RetClientTimeout
        "selector timeout after Select: context deadline exceeded"), opts2, st2)
    | none => (Except.ok node, opts2, st2)

/-! ### Selector filter (client.go:391-434). -/

/-- Whether an error is a framework error of kind `ClientConnectFail`,
`ClientTimeout` or `ClientNetErr` (the type assertion and code test of
client.go:414-418). -/
def isNetworkFrameErr (err : GoError) : Bool :=
  match err with
  | some (GoErr.errsErr e) =>
    (e.etype == ErrorTypeFramework) &&
      ((e.code == RetClientConnectFail) || (e.code == RetClientTimeout) ||
        (e.code == RetClientNetErr))
  | _ => false

/-- `e.Msg = fmt.Sprintf("%s, cost:%s", e.Msg, cost)` (client.go:419): the
cost string is appended to the message of a `*errs.Error`; since the
mutation goes through the shared pointer, the returned error carries it
too.  The duration rendering is abstracted to the integer cost. -/
def augmentCost (err : GoError) (cost : Int) : GoError :=
  match err with
  | some (GoErr.errsErr e) =>
    some (GoErr.errsErr { e with emsg := e.emsg ++ ", cost:" ++ toString cost })
  | _ => err

/-- The report decision of client.go:414-425, returning the (possibly
message-augmented) error to propagate and the error value passed to
`Selector.Report`. -/
def reportDecision (opts : Options) (err : GoError) (cost : Int) : GoError × GoError :=
  if isNetworkFrameErr err then (augmentCost err cost, augmentCost err cost)
  else if opts.shouldErrReportToSelector err then (err, err)
  else (err, none)

/-- The address string published back to the caller via `opts.Node.set`
(client.go:427-432): the message's remote address when set, else the node
address. -/
def reportAddr (node : Node) (st : St) : String :=
  match st.msg.remoteAddr with
  | some a => netAddrString a
  | none => node.address

/-- The prefix of `selectorFilter` before the timed call to `next`
(client.go:392-408): the immutable-options clone (a no-op under value
semantics — in Go it prevents aliasing between concurrent retry attempts),
node selection, and remote-address setup.  Returns the selection error or
the node, together with the context now carrying the updated options. -/
def selectorFilterSetup (env : Env) (ctx : Ctx) (st : St) :
    Except GoErr Node × Ctx × St :=
  match selectNode ctx ctx.opts st with
  | (Except.error e, opts1, st1) => (Except.error e, { ctx with opts := opts1 }, st1)
  | (Except.ok node, opts1, st1) =>
    let msg1 := ensureMsgRemoteAddr env.netlib st1.msg
      (findFirstNonEmpty node.network opts1.network) node.address
    (Except.ok node, { ctx with opts := opts1 }, { st1 with msg := msg1 })

/-- `selectorFilter` (client.go:391-434): select a node (a failure is
returned through `fixTimeout` without calling `next` or reporting), then run
`next` under the wall clock, report the outcome to the selector, and publish
the node information (`opts.Node.set`, recorded as `nodeInfoSet`). -/
def selectorFilter (env : Env) : ClientFilter := fun ctx req next st =>
  match selectorFilterSetup env ctx st with
  | (Except.error e, ctx1, st1) => (ctx1.opts.fixTimeout (some e), st1)
  | (Except.ok node, ctx1, st1) =>
    let beginClock := st1.clock
    match next ctx1 req st1 with
    | (err, st2) =>
      let cost := st2.clock - beginClock
      match reportDecision ctx1.opts err cost with
      | (err2, reported) =>
        (err2, { st2 with events := st2.events ++
          [Event.reportCalled node cost reported,
           Event.nodeInfoSet (reportAddr node st2) cost] })

/-! ### Filter chain engine (`filter` package; not under src/). -/

/-- Interpretation of filter codes: the distinguished selector filter, or
the caller-supplied family of user interceptors. -/
def interpFilter (env : Env) (uf : Nat → ClientFilter) : FilterCode → ClientFilter
  | FilterCode.selector => selectorFilter env
  | FilterCode.user n => uf n

/-- Modelled from the spec (§4.2): `filter.ClientChain.Filter` executes the
interceptors in order, each receiving the continuation for the remaining
suffix, with `next` as the terminal handler. -/
def chainRun (env : Env) (uf : Nat → ClientFilter) :
    List FilterCode → Ctx → String → ClientHandleFunc → St → GoError × St
  | [], ctx, req, next, st => next ctx req st
  | c :: rest, ctx, req, next, st =>
    interpFilter env uf c ctx req
      (fun ctx2 req2 st2 => chainRun env uf rest ctx2 req2 next st2) st

/-! ### Option merge and message update (client.go:107-224). -/

/-- `getServiceInfoOptions` (client.go:127-138). -/
def getServiceInfoOptions (msg : Msg) : List SelectOption :=
  if msg.msgNamespace ≠ "" then
    [SelectOption.sourceNamespace msg.msgNamespace,
     SelectOption.sourceServiceName msg.callerServiceName,
     SelectOption.sourceEnvName msg.envName,
     SelectOption.envTransferOpt msg.envTransfer,
     SelectOption.sourceSetName msg.setName]
  else []

/-- Modelled from the spec (§3, §4.1 step 3): `Options.parseTarget` (defined
outside src/) parses the `scheme://authority` target string into the
endpoint; an empty target is a no-op and a malformed target is an error. -/
def parseTarget (opts : Options) : Except String Options :=
  if opts.target = "" then Except.ok opts
  else
    match opts.target.splitOn "://" with
    | [scheme, authority] =>
      if scheme = "" ∨ authority = "" then
        Except.error ("client: target invalid: " ++ opts.target)
      else Except.ok { opts with endpoint := authority }
    | _ => Except.error ("client: target invalid: " ++ opts.target)

/-- `getOptions` (client.go:107-124): baseline clone, service-info selector
options, call-site options last, then target parsing (`ClientRouteErr` on
failure). -/
def getOptions (env : Env) (msg : Msg) (callOpts : List GoOption) : Except GoErr Options :=
  let opts := env.getOptionsByCallee msg.calleeServiceName
  let opts := { opts with selectOptions := opts.selectOptions ++ getServiceInfoOptions msg }
  let opts := callOpts.foldl (fun o f => f o) opts
  match parseTarget opts with
  | Except.error e => Except.error (NewFrameError RetClientRouteErr e)
  | Except.ok opts2 => Except.ok opts2

/-- One metadata update (Go map assignment `md[k] = v`, on an association
list). -/
def mdSet (md : List (String × String)) (k v : String) : List (String × String) :=
  if md.any (fun p => p.1 = k) then
    md.map (fun p => if p.1 = k then (k, v) else p)
  else md ++ [(k, v)]

/-- `getMetaData` (client.go:201-210): option metadata merged over the
message metadata, option keys winning. -/
def getMetaData (msg : Msg) (opts : Options) : List (String × String) :=
  opts.metaData.foldl (fun md p => mdSet md p.1 p.2) msg.clientMetaData

/-- `setAttachment` (client.go:191-198): the attachment is stored in the
common-meta slot keyed by `attachment.ClientAttachmentKey`. -/
def setAttachment (msg : Msg) (a : String) : Msg :=
  { msg with commonMetaAttachment := some a }

/-- `updateMsg` (client.go:141-188).  The endpoint default also mutates the
options, so the updated options are returned too. -/
def updateMsg (msg : Msg) (opts : Options) : Msg × Options :=
  let msg := if opts.serviceName ≠ "" then
      { msg with calleeServiceName := opts.serviceName } else msg
  let opts := if opts.endpoint = "" then
      { opts with endpoint := msg.calleeServiceName } else opts
  let msg := if opts.calleeMethod ≠ "" then
      { msg with calleeMethod := opts.calleeMethod } else msg
  let msg := if opts.metaData ≠ [] then
      { msg with clientMetaData := getMetaData msg opts } else msg
  let msg := if opts.callerServiceName ≠ "" then
      { msg with callerServiceName := opts.callerServiceName } else msg
  let msg := if IsValidSerializationType opts.serializationType then
      { msg with serializationType := opts.serializationType } else msg
  let msg := if IsValidCompressType opts.compressType && (opts.compressType != CompressTypeNoop)
    then { msg with compressType := opts.compressType } else msg
  let msg := match opts.reqHead with
    | some h => { msg with clientReqHead := some h }
    | none => msg
  let msg := match opts.rspHead with
    | some h => { msg with clientRspHead := some h }
    | none => msg
  let msg := { msg with callType := opts.callType }
  let msg := match opts.attachment with
    | some a => setAttachment msg a
    | none => msg
  (msg, opts)

/-- `fixFilters` (client.go:212-224): with filters disabled or empty the
chain is just the selector filter; otherwise, when the selector position is
not pinned, the selector filter is appended to the list. -/
def fixFilters (opts : Options) : List FilterCode × Options :=
  if opts.disableFilter || opts.filters.isEmpty then
    ([FilterCode.selector],
     { opts with filterNames := opts.filterNames ++ [DefaultSelectorFilterName] })
  else if !opts.selectorFilterPosFixed then
    let opts1 : Options := { opts with
      filters := opts.filters ++ [FilterCode.selector],
      filterNames := opts.filterNames ++ [DefaultSelectorFilterName] }
    (opts1.filters, opts1)
  else (opts.filters, opts)

/-- The timeout composition of `Invoke` (client.go:86-97): remember the
incoming full-link deadline, derive a child context when `Options.Timeout >
0` (its deadline the minimum of parent deadline and now + timeout), set the
message request timeout from the effective deadline, and install the
full-link `fixTimeout` adapter when a full-link deadline existed and either
`Timeout ≤ 0` or the full-link deadline is tighter. -/
def timeoutStep (ctx : Ctx) (opts : Options) (st : St) : Ctx × Options × St :=
  let fullLinkDeadline := ctx.deadline
  let ctx1 : Ctx :=
    if 0 < opts.timeout then
      let child : Int :=
        match ctx.deadline with
        | some d => min d (st.clock + opts.timeout)
        | none => st.clock + opts.timeout
      { ctx with deadline := some child }
    else ctx
  let st1 : St :=
    match ctx1.deadline with
    | some d => { st with msg := { st.msg with requestTimeout := d - st.clock } }
    | none => st
  let opts1 : Options :=
    match fullLinkDeadline with
    | some d =>
      if opts.timeout ≤ 0 ∨ d - st.clock < opts.timeout then
        { opts with fixTimeout := mayConvert2FullLinkTimeout }
      else opts
    | none => opts
  (ctx1, opts1, st1)

/-- `Invoke` (client.go:60-105): option merge, message update, timeout
composition, filter resolution, then the chain with `callFunc` as terminal.
The rpcz span bookkeeping is pure observability and is not modelled; the
message is already attached to the state (`EnsureMessage`). -/
def Invoke (env : Env) (uf : Nat → ClientFilter) (ctx : Ctx) (reqBody : String)
    (callOpts : List GoOption) (st : St) : GoError × St :=
  match getOptions env st.msg callOpts with
  | Except.error e => (some e, st)
  | Except.ok opts =>
    match updateMsg st.msg opts with
    | (msg1, opts1) =>
      let st1 : St := { st with msg := msg1 }
      match timeoutStep ctx opts1 st1 with
      | (ctx1, opts2, st2) =>
        match fixFilters opts2 with
        | (chain, opts3) =>
          chainRun env uf chain { ctx1 with opts := opts3 } reqBody (callFunc env) st2

/-! ### Concrete fixtures, used to run the embedded code on small inputs. -/

/-- A `net` library in which nothing parses or resolves. -/
def noneNetLib : NetLib where
  splitHostPort := fun _ => none
  parseIP := fun _ => none
  resolveTCPAddr := fun _ _ => none
  resolveUDPAddr := fun _ _ => none
  resolveUnixAddr := fun _ _ => none

/-- A `net` library resolving the literal address 10.0.0.1:8000. -/
def literalNetLib : NetLib where
  splitHostPort := fun s =>
    if s = "10.0.0.1:8000" then some ("10.0.0.1", "8000") else none
  parseIP := fun s => if s = "10.0.0.1" then some s else none
  resolveTCPAddr := fun nw s =>
    if s = "10.0.0.1:8000" then some (NetAddr.tcpAddr nw "10.0.0.1" 8000) else none
  resolveUDPAddr := fun nw s =>
    if s = "10.0.0.1:8000" then some (NetAddr.udpAddr nw "10.0.0.1" 8000) else none
  resolveUnixAddr := fun _ s => some (NetAddr.unixAddr s)

def okNode : Node :=
  { serviceName := "svcA", address := "10.0.0.1:8000", network := "tcp" }

/-- A selector that always returns `okNode`, consuming one clock tick. -/
def trivSelector : SelectorImpl where
  select := fun _ _ => (Except.ok okNode, 1)

/-- A selector whose `Select` fails. -/
def failSelector : SelectorImpl where
  select := fun _ _ => (Except.error "selector down", 1)

/-- A selector returning a node with an empty address. -/
def emptyAddrSelector : SelectorImpl where
  select := fun _ _ => (Except.ok { serviceName := "svcA" }, 1)

/-- A transport echoing the request frame, consuming one clock tick. -/
def echoTransport : TransportImpl where
  roundTrip := fun _ _ buf _ msg => (Except.ok buf, msg, 1)

/-- A send-only transport returning the `ErrClientNoResponse` sentinel. -/
def noRespTransport : TransportImpl where
  roundTrip := fun _ _ _ _ msg => (Except.error errClientNoResponse, msg, 1)

/-- A transport failing with a framework `ClientNetErr`. -/
def netErrTransport : TransportImpl where
  roundTrip := fun _ _ _ _ msg =>
    (Except.error (NewFrameError RetClientNetErr "write: broken pipe"), msg, 1)

/-- An identity codec: the frame is the body buffer. -/
def idCodec : CodecImpl where
  encode := fun msg buf => (Except.ok buf, msg)
  decode := fun msg buf => (Except.ok buf, msg)

/-- A codec whose decode sets a business `ClientRspErr` while still
returning body bytes. -/
def bizRspErr : GoErr :=
  GoErr.errsErr { etype := ErrorTypeBusiness, code := 7, emsg := "boom" }

def rspErrCodec : CodecImpl where
  encode := fun msg buf => (Except.ok buf, msg)
  decode := fun msg buf => (Except.ok buf, { msg with clientRspErr := some bizRspErr })

def baseOptions : Options where
  endpoint := "svcA"
  network := "tcp"
  codec := some idCodec
  transport := echoTransport
  selector := trivSelector

def baseMsg : Msg := { calleeServiceName := "svcA" }

def baseSt : St := { msg := baseMsg }

def baseCtx : Ctx := { opts := baseOptions }

/-- A registry in which every type code marshals a request to `[1]` and
unmarshals any buffer to the string "rsp", and compression is the identity. -/
def baseEnv : Env where
  marshal := fun _ _ => Except.ok [1]
  unmarshal := fun _ _ _ => Except.ok "rsp"
  compress := fun _ buf => Except.ok buf
  decompress := fun _ buf => Except.ok buf
  netlib := noneNetLib
  getOptionsByCallee := fun _ => baseOptions

/-- User-filter family with every slot a pass-through interceptor. -/
def passUf : Nat → ClientFilter := fun _ => fun ctx req next st => next ctx req st

/-- A context whose selector fails. -/
def ctxFail : Ctx := { opts := { baseOptions with selector := failSelector } }

/-- A context whose selector returns a node with an empty address. -/
def ctxEmptyAddr : Ctx := { opts := { baseOptions with selector := emptyAddrSelector } }

/-- A context whose user predicate reports every error — nil included — to
the selector. -/
def ctxPred : Ctx :=
  { opts := { baseOptions with shouldErrReportToSelector := fun _ => true } }

/-- A context over the send-only transport. -/
def ctxNoResp : Ctx := { opts := { baseOptions with transport := noRespTransport } }

/-- A context over the failing transport. -/
def ctxNetErr : Ctx := { opts := { baseOptions with transport := netErrTransport } }

/-- A context carrying a full-link deadline at clock 10 (the base options
have `timeout = 0`). -/
def deadlineCtx : Ctx := { deadline := some 10, opts := baseOptions }

/-- The payload of a framework `ClientTimeout` error fabricated by a user
interceptor. -/
def fabFrame : FrameErr :=
  { etype := ErrorTypeFramework, code := RetClientTimeout, emsg := "fabricated" }

/-- A framework `ClientTimeout` error fabricated by a user interceptor. -/
def fabErr : GoErr := GoErr.errsErr fabFrame

/-- A user interceptor that short-circuits with `fabErr` without calling
`next`. -/
def fabFilter : ClientFilter := fun _ _ _ st => (some fabErr, st)

def fabUf : Nat → ClientFilter := fun _ => fabFilter

/-- A call-site option installing one user filter. -/
def userFilterOpt : GoOption := fun o => { o with filters := [FilterCode.user 0] }

/-- Per-call state carrying a non-nil response error. -/
def stRspErr : St := { msg := { baseMsg with clientRspErr := some bizRspErr } }

/-- Base options with a 10-tick per-call timeout. -/
def optsTimeout10 : Options := { baseOptions with timeout := 10 }

/-- A context whose full-link deadline (100) is looser than the 10-tick
per-call timeout. -/
def ctxLoose : Ctx := { deadline := some 100, opts := optsTimeout10 }

/-- Base options with one user filter, position not pinned. -/
def optsUser : Options := { baseOptions with filters := [FilterCode.user 0] }

/-- Base options with the selector filter pinned by the user at the head. -/
def optsPinned : Options :=
  { baseOptions with filters := [FilterCode.selector, FilterCode.user 0], selectorFilterPosFixed := true }

/-- Base options with a valid current serialization type. -/
def optsSer : Options := { baseOptions with currentSerializationType := 2 }

/-- Base options with a valid, non-noop current compress type. -/
def optsGzip : Options := { baseOptions with currentCompressType := 1 }

/-- The state after `prepareRequestBuf` on the base fixtures. -/
def stPrep : St := { msg := baseMsg, events := [Event.encodeCalled] }

/-- The state after a send-only round trip on the base fixtures. -/
def stNoResp : St :=
  { msg := baseMsg, clock := 1, events := [Event.encodeCalled, Event.roundTripCalled] }

/-- The options value after a successful node selection on the base
fixtures. -/
def optsAfterSelect : Options :=
  { baseOptions with
    selectOptions := [SelectOption.withContext]
    callOptions := [CallOption.dialAddress "10.0.0.1:8000", CallOption.dialNetwork "tcp"] }

/-- The context after a successful node selection on the base fixtures. -/
def ctxAfterSelect : Ctx := { opts := optsAfterSelect }

/-- The state after a successful node selection on the base fixtures. -/
def stAfterSelect : St :=
  { msg := baseMsg, clock := 1, events := [Event.selectCalled "svcA"] }

/-- The state after `callFunc` has run as `next` on the base fixtures. -/
def stAfterNext : St :=
  { msg := baseMsg, clock := 2,
    events := [Event.selectCalled "svcA", Event.encodeCalled, Event.roundTripCalled,
               Event.decodeCalled] }

/-- The context value `selectorFilterSetup` produces on the failing-selector
fixtures (select options appended, selection failed before the node config
was loaded). -/
def ctxFailAfter : Ctx :=
  { opts := { baseOptions with
      selector := failSelector
      selectOptions := [SelectOption.withContext] } }

/-- The route error produced by the failing selector. -/
def routeDownErr : GoErr := NewFrameError RetClientRouteErr "client Select: selector down"

end TrpcClient

namespace TrpcClient

/-! ## Helper lemmas -/

theorem reportsOf_append (a b : List Event) :
    reportsOf (a ++ b) = reportsOf a ++ reportsOf b := by
  simp [reportsOf, List.filterMap_append]

theorem reportsOf_selectCalled (evs : List Event) (ep : String) :
    reportsOf (evs ++ [Event.selectCalled ep]) = reportsOf evs := by
  simp [reportsOf, List.filterMap_append, List.filterMap]

theorem getNode_events (opts : Options) (st : St) :
    ((getNode opts st).2).events = st.events ++ [Event.selectCalled opts.endpoint] := by
  unfold getNode
  rcases hs : opts.selector.select opts.endpoint opts.selectOptions with ⟨res, dt⟩
  cases res with
  | error e => simp
  | ok node =>
    by_cases h : node.address = "" <;> simp [h]

theorem selectNode_events (ctx : Ctx) (opts : Options) (st : St) :
    ((selectNode ctx opts st).2.2).events =
      st.events ++ [Event.selectCalled opts.endpoint] := by
  simp only [selectNode]
  rcases hg : getNode { opts with selectOptions := opts.selectOptions ++ [SelectOption.withContext] } st with ⟨res, st1⟩
  have he : st1.events = st.events ++ [Event.selectCalled opts.endpoint] := by
    have h := getNode_events { opts with selectOptions := opts.selectOptions ++ [SelectOption.withContext] } st
    rw [hg] at h
    exact h
  cases res with
  | error e => simpa using he
  | ok node =>
    rcases hc : ctxErrAt ctx st1.clock with _ | ce
    · simpa [hc] using he
    · cases ce <;> simpa [hc] using he

theorem selectNode_fixTimeout (ctx : Ctx) (opts : Options) (st : St) :
    ((selectNode ctx opts st).2.1).fixTimeout = opts.fixTimeout := by
  simp only [selectNode]
  rcases hg : getNode { opts with selectOptions := opts.selectOptions ++ [SelectOption.withContext] } st with ⟨res, st1⟩
  cases res with
  | error e => simp
  | ok node =>
    rcases hc : ctxErrAt ctx st1.clock with _ | ce
    · simp [hc, loadNodeConfig]
    · cases ce <;> simp [hc, loadNodeConfig]

theorem selectorFilterSetup_events (env : Env) (ctx : Ctx) (st : St) :
    ((selectorFilterSetup env ctx st).2.2).events =
      st.events ++ [Event.selectCalled ctx.opts.endpoint] := by
  simp only [selectorFilterSetup]
  rcases hsn : selectNode ctx ctx.opts st with ⟨res, opts1, st1⟩
  have he : st1.events = st.events ++ [Event.selectCalled ctx.opts.endpoint] := by
    have h := selectNode_events ctx ctx.opts st
    rw [hsn] at h
    exact h
  cases res with
  | error e => simpa using he
  | ok node => simpa using he

theorem selectorFilterSetup_fixTimeout (env : Env) (ctx : Ctx) (st : St) :
    ((selectorFilterSetup env ctx st).2.1).opts.fixTimeout = ctx.opts.fixTimeout := by
  simp only [selectorFilterSetup]
  rcases hsn : selectNode ctx ctx.opts st with ⟨res, opts1, st1⟩
  have hf : opts1.fixTimeout = ctx.opts.fixTimeout := by
    have h := selectNode_fixTimeout ctx ctx.opts st
    rw [hsn] at h
    exact h
  cases res with
  | error e => simpa using hf
  | ok node => simpa using hf

/-! ## Claim C3 -/

/-- Claim C3: if the codec's `Decode` left a non-nil `Message.ClientRspErr`,
`processResponseBuf` returns exactly that error and the state is completely
untouched — the response body object is not modified and neither decompress
nor unmarshal is invoked (no events are appended) — even when the decoded
body buffer is non-empty (the buffer is universally quantified). -/
theorem clientRspErr_short_circuit (env : Env) (opts : Options) (rspBodyBuf : Buf)
    (st : St) (e : GoErr) (h : st.msg.clientRspErr = some e) :
    processResponseBuf env opts rspBodyBuf st = (some e, st) := by
  unfold processResponseBuf
  rw [h]

theorem clientRspErr_short_circuit_witness :
    stRspErr.msg.clientRspErr = some bizRspErr ∧ ([9, 9] : Buf) ≠ [] ∧
    processResponseBuf baseEnv baseOptions [9, 9] stRspErr = (some bizRspErr, stRspErr) :=
  ⟨rfl, by decide,
   clientRspErr_short_circuit baseEnv baseOptions [9, 9] stRspErr bizRspErr rfl⟩

/-! ## Claim C4 -/

/-- Claim C4: in `Invoke`'s timeout composition (`timeoutStep`), when the
incoming context carries a deadline and either `Options.Timeout ≤ 0` or the
full-link deadline expires before now plus `Options.Timeout`, the per-call
`fixTimeout` becomes `mayConvert2FullLinkTimeout`, the adapter re-tagging a
framework `ClientTimeout` as `ClientFullLinkTimeout`; otherwise `fixTimeout`
is left as it was — by default the identity — so a downstream framework
`ClientTimeout` is returned unchanged. -/
theorem timeoutStep_fullLink_fixer (ctx : Ctx) (opts : Options) (st : St) :
    (∀ d, ctx.deadline = some d → (opts.timeout ≤ 0 ∨ d - st.clock < opts.timeout) →
      ((timeoutStep ctx opts st).2.1).fixTimeout = mayConvert2FullLinkTimeout) ∧
    (∀ m, mayConvert2FullLinkTimeout (some (NewFrameError RetClientTimeout m)) =
      some (NewFrameError RetClientFullLinkTimeout m)) ∧
    ((∀ d, ctx.deadline = some d → (0 < opts.timeout ∧ opts.timeout ≤ d - st.clock)) →
      ((timeoutStep ctx opts st).2.1).fixTimeout = opts.fixTimeout) ∧
    (opts.fixTimeout = defaultFixTimeout →
      (∀ d, ctx.deadline = some d → (0 < opts.timeout ∧ opts.timeout ≤ d - st.clock)) →
      ∀ m, ((timeoutStep ctx opts st).2.1).fixTimeout
          (some (NewFrameError RetClientTimeout m)) =
        some (NewFrameError RetClientTimeout m)) := by
  have hstay : (∀ d, ctx.deadline = some d → (0 < opts.timeout ∧ opts.timeout ≤ d - st.clock)) →
      ((timeoutStep ctx opts st).2.1).fixTimeout = opts.fixTimeout := by
    intro h
    rcases hd : ctx.deadline with _ | d
    · simp [timeoutStep, hd]
    · have hb := h d hd
      have hneg : ¬(opts.timeout ≤ 0 ∨ d - st.clock < opts.timeout) := by omega
      simp [timeoutStep, hd, hneg]
  refine ⟨?_, ?_, hstay, ?_⟩
  · intro d hd hcond
    simp [timeoutStep, hd, hcond]
  · intro m
    simp [mayConvert2FullLinkTimeout, NewFrameError]
  · intro hfix h m
    rw [hstay h, hfix]
    rfl

theorem timeoutStep_fullLink_fixer_witness :
    deadlineCtx.deadline = some 10 ∧ baseOptions.timeout ≤ 0 ∧
    ((timeoutStep deadlineCtx baseOptions baseSt).2.1).fixTimeout =
      mayConvert2FullLinkTimeout ∧
    ((timeoutStep ctxLoose optsTimeout10 baseSt).2.1).fixTimeout =
      optsTimeout10.fixTimeout ∧
    ((timeoutStep ctxLoose optsTimeout10 baseSt).2.1).fixTimeout
        (some (NewFrameError RetClientTimeout "t")) =
      some (NewFrameError RetClientTimeout "t") := by
  have h1 := timeoutStep_fullLink_fixer deadlineCtx baseOptions baseSt
  have h2 := timeoutStep_fullLink_fixer ctxLoose optsTimeout10 baseSt
  refine ⟨rfl, by decide, h1.1 10 rfl (Or.inl (by decide)), ?_, ?_⟩
  · exact h2.2.2.1 (by intro d hd; cases hd; constructor <;> decide)
  · exact h2.2.2.2 rfl (by intro d hd; cases hd; constructor <;> decide) "t"

/-! ## Claim C5 -/

/-- Claim C5: the effective filter chain returned by `fixFilters` is exactly
`[selectorFilter]` when `DisableFilter` is set or the user filter list is
empty; otherwise, when `selectorFilterPosFixed` is false, the user list with
the selector filter appended exactly once at the tail; and when
`selectorFilterPosFixed` is true, the user list unchanged, so the selector
filter stays at the user-pinned position. -/
theorem fixFilters_chain (opts : Options) :
    ((opts.disableFilter = true ∨ opts.filters = []) →
      (fixFilters opts).1 = [FilterCode.selector]) ∧
    (opts.disableFilter = false → opts.filters ≠ [] →
      opts.selectorFilterPosFixed = false →
      (fixFilters opts).1 = opts.filters ++ [FilterCode.selector] ∧
      (fixFilters opts).1.getLast? = some FilterCode.selector ∧
      (FilterCode.selector ∉ opts.filters →
        (fixFilters opts).1.count FilterCode.selector = 1)) ∧
    (opts.disableFilter = false → opts.filters ≠ [] →
      opts.selectorFilterPosFixed = true →
      (fixFilters opts).1 = opts.filters ∧
      (∀ i, opts.filters.get? i = some FilterCode.selector →
        (fixFilters opts).1.get? i = some FilterCode.selector)) := by
  refine ⟨?_, ?_, ?_⟩
  · rintro (h | h)
    · simp [fixFilters, h]
    · simp [fixFilters, h]
  · intro h1 h2 h3
    have hne : opts.filters.isEmpty = false := by
      cases hf : opts.filters with
      | nil => exact absurd hf h2
      | cons a l => simp
    refine ⟨by simp [fixFilters, h1, h3, hne], ?_, ?_⟩
    · simp [fixFilters, h1, h3, hne]
    · intro hnotin
      simp [fixFilters, h1, h3, hne, List.count_append]
      exact List.count_eq_zero.mpr hnotin
  · intro h1 h2 h3
    have hne : opts.filters.isEmpty = false := by
      cases hf : opts.filters with
      | nil => exact absurd hf h2
      | cons a l => simp
    constructor
    · simp [fixFilters, h1, h3, hne]
    · intro i hi
      simpa [fixFilters, h1, h3, hne] using hi

theorem fixFilters_chain_witness :
    (fixFilters { baseOptions with disableFilter := true }).1 = [FilterCode.selector] ∧
    (fixFilters optsUser).1 = [FilterCode.user 0, FilterCode.selector] ∧
    (fixFilters optsUser).1.count FilterCode.selector = 1 ∧
    (fixFilters optsPinned).1 = [FilterCode.selector, FilterCode.user 0] := by
  have h1 := (fixFilters_chain { baseOptions with disableFilter := true }).1 (Or.inl rfl)
  have h2 := (fixFilters_chain optsUser).2.1 rfl (by decide) rfl
  have h3 := (fixFilters_chain optsPinned).2.2 rfl (by decide) rfl
  exact ⟨h1, h2.1, h2.2.2 (by decide), h3.1⟩

/-! ## Claim C7 -/

/-- Claim C7: `ensureMsgRemoteAddr` never overwrites an already-set remote
address; for IP-family (`tcp*`/`udp*`) networks it returns without setting
whenever the address does not split as host:port or the host is not a
literal IP; otherwise it resolves per network (`tcp|tcp4|tcp6` to a TCPAddr,
`udp|udp4|udp6` to a UDPAddr, `unix` to a UnixAddr, any other network to a
TCPAddr over tcp4), and since `remoteAddr` receives the resolution result, a
resolution error (`none`) leaves the field unset. -/
theorem ensureMsgRemoteAddr_cases (lib : NetLib) (msg : Msg) (network address : String) :
    (msg.remoteAddr.isSome = true → ensureMsgRemoteAddr lib msg network address = msg) ∧
    (msg.remoteAddr = none → isIPFamilyNetwork network = true →
      lib.splitHostPort address = none →
      ensureMsgRemoteAddr lib msg network address = msg) ∧
    (msg.remoteAddr = none → isIPFamilyNetwork network = true →
      ∀ host rest, lib.splitHostPort address = some (host, rest) →
        lib.parseIP host = none → ensureMsgRemoteAddr lib msg network address = msg) ∧
    ((network = "tcp" ∨ network = "tcp4" ∨ network = "tcp6") → msg.remoteAddr = none →
      ∀ host rest ip, lib.splitHostPort address = some (host, rest) →
        lib.parseIP host = some ip →
        ensureMsgRemoteAddr lib msg network address =
          { msg with remoteAddr := lib.resolveTCPAddr network address }) ∧
    ((network = "udp" ∨ network = "udp4" ∨ network = "udp6") → msg.remoteAddr = none →
      ∀ host rest ip, lib.splitHostPort address = some (host, rest) →
        lib.parseIP host = some ip →
        ensureMsgRemoteAddr lib msg network address =
          { msg with remoteAddr := lib.resolveUDPAddr network address }) ∧
    (network = "unix" → msg.remoteAddr = none →
      ensureMsgRemoteAddr lib msg network address =
        { msg with remoteAddr := lib.resolveUnixAddr network address }) ∧
    (isIPFamilyNetwork network = false → network ≠ "unix" → msg.remoteAddr = none →
      ensureMsgRemoteAddr lib msg network address =
        { msg with remoteAddr := lib.resolveTCPAddr "tcp4" address }) := by
  refine ⟨?_, ?_, ?_, ?_, ?_, ?_, ?_⟩
  · intro h
    simp [ensureMsgRemoteAddr, h]
  · intro hr hfam hsplit
    simp [ensureMsgRemoteAddr, hr, hfam, hsplit]
  · intro hr hfam host rest hsplit hip
    simp [ensureMsgRemoteAddr, hr, hfam, hsplit, hip]
  · rintro (h | h | h) hr host rest ip hsplit hip <;> subst h <;>
      simp [ensureMsgRemoteAddr, isIPFamilyNetwork, hr, hsplit, hip]
  · rintro (h | h | h) hr host rest ip hsplit hip <;> subst h <;>
      simp [ensureMsgRemoteAddr, isIPFamilyNetwork, hr, hsplit, hip]
  · intro h hr
    subst h
    simp [ensureMsgRemoteAddr, isIPFamilyNetwork, hr]
  · intro hfam hunix hr
    have hfam' := hfam
    simp only [isIPFamilyNetwork, Bool.or_eq_false_iff, beq_eq_false_iff_ne, ne_eq] at hfam'
    obtain ⟨⟨⟨⟨⟨h1, h2⟩, h3⟩, h4⟩, h5⟩, h6⟩ := hfam'
    simp [ensureMsgRemoteAddr, hr, hfam, h1, h2, h3, h4, h5, h6, hunix]

theorem ensureMsgRemoteAddr_cases_witness :
    ensureMsgRemoteAddr noneNetLib baseMsg "tcp" "example.com:80" = baseMsg ∧
    ensureMsgRemoteAddr literalNetLib baseMsg "tcp" "10.0.0.1:8000" =
      { baseMsg with remoteAddr := literalNetLib.resolveTCPAddr "tcp" "10.0.0.1:8000" } ∧
    literalNetLib.resolveTCPAddr "tcp" "10.0.0.1:8000" =
      some (NetAddr.tcpAddr "tcp" "10.0.0.1" 8000) := by
  refine ⟨?_, ?_, by decide⟩
  · exact (ensureMsgRemoteAddr_cases noneNetLib baseMsg "tcp" "example.com:80").2.1
      rfl (by decide) (by decide)
  · exact (ensureMsgRemoteAddr_cases literalNetLib baseMsg "tcp" "10.0.0.1:8000").2.2.2.1
      (Or.inl rfl) rfl "10.0.0.1" "8000" "10.0.0.1" (by decide) (by decide)

/-! ## Claim C8 -/

/-- Claim C8: on the request path the effective serialization type is
`Options.CurrentSerializationType` when valid, else
`Message.SerializationType`; validity means at least the protocol floor
`SerializationTypePB`; `Marshal` is invoked (a marshal event is traced) iff
the effective type is valid; and an invalid effective type yields an empty
body buffer with a nil error and an untouched state — the silent
pass-through. -/
theorem marshal_effective_type (env : Env) (opts : Options) (reqBody : String) (st : St) :
    (IsValidSerializationType (requestSerializationType st.msg opts) = true ↔
      SerializationTypePB ≤ requestSerializationType st.msg opts) ∧
    (IsValidSerializationType opts.currentSerializationType = true →
      requestSerializationType st.msg opts = opts.currentSerializationType) ∧
    (IsValidSerializationType opts.currentSerializationType = false →
      requestSerializationType st.msg opts = st.msg.serializationType) ∧
    (IsValidSerializationType (requestSerializationType st.msg opts) = true →
      (marshalRequest env opts reqBody st).2.events =
        st.events ++ [Event.marshalCalled (requestSerializationType st.msg opts)]) ∧
    (IsValidSerializationType (requestSerializationType st.msg opts) = false →
      marshalRequest env opts reqBody st = (Except.ok [], st)) := by
  refine ⟨?_, ?_, ?_, ?_, ?_⟩
  · simp [IsValidSerializationType]
  · intro h
    simp [requestSerializationType, h]
  · intro h
    simp [requestSerializationType, h]
  · intro h
    simp only [marshalRequest, h, if_true]
    cases hm : env.marshal (requestSerializationType st.msg opts) reqBody with
    | error e => simp [hm]
    | ok buf => simp [hm]
  · intro h
    simp [marshalRequest, h]

theorem marshal_effective_type_witness :
    requestSerializationType baseMsg optsSer = 2 ∧
    (marshalRequest baseEnv optsSer "req" baseSt).2.events =
      baseSt.events ++ [Event.marshalCalled 2] ∧
    IsValidSerializationType (requestSerializationType baseMsg baseOptions) = false ∧
    marshalRequest baseEnv baseOptions "req" baseSt = (Except.ok [], baseSt) := by
  have h1 := marshal_effective_type baseEnv optsSer "req" baseSt
  have h2 := marshal_effective_type baseEnv baseOptions "req" baseSt
  refine ⟨h1.2.1 (by decide), ?_, by decide, h2.2.2.2.2 (by decide)⟩
  have h := h1.2.2.2.1 (by decide)
  simpa using h

/-! ## Claim C10 -/

/-- Claim C10: on the request path, the compress stage runs whenever the
effective compress type is valid and not noop, regardless of the body buffer
— in particular for an empty (nil) buffer, as happens when the
serialization type was invalid and no marshalling occurred: there is no
empty-buffer skip.  By contrast, on the response path an empty decoded body
buffer returns nil before decompress and unmarshal. -/
theorem compress_ignores_empty_buffer (env : Env) (opts : Options) (reqBody : String)
    (buf : Buf) (st : St) (st1 : St) :
    ((IsValidCompressType (requestCompressType st.msg opts) &&
        (requestCompressType st.msg opts != CompressTypeNoop)) = true →
      (compressRequest env opts buf st).2.events =
        st.events ++ [Event.compressCalled (requestCompressType st.msg opts)]) ∧
    (marshalRequest env opts reqBody st = (Except.ok buf, st1) →
      serializeAndCompress env opts reqBody st = compressRequest env opts buf st1) ∧
    (st.msg.clientRspErr = none →
      processResponseBuf env opts [] st = (none, st)) := by
  refine ⟨?_, ?_, ?_⟩
  · intro h
    simp only [compressRequest, h, if_true]
    cases hc : env.compress (requestCompressType st.msg opts) buf with
    | error e => simp [hc]
    | ok buf2 => simp [hc]
  · intro h
    simp only [serializeAndCompress]
    rw [h]
  · intro h
    simp [processResponseBuf, h]

theorem compress_ignores_empty_buffer_witness :
    ((IsValidCompressType (requestCompressType baseMsg optsGzip) &&
        (requestCompressType baseMsg optsGzip != CompressTypeNoop)) = true) ∧
    (compressRequest baseEnv optsGzip [] baseSt).2.events =
      baseSt.events ++ [Event.compressCalled 1] ∧
    marshalRequest baseEnv optsGzip "req" baseSt = (Except.ok [], baseSt) ∧
    serializeAndCompress baseEnv optsGzip "req" baseSt =
      compressRequest baseEnv optsGzip [] baseSt ∧
    processResponseBuf baseEnv baseOptions [] baseSt = (none, baseSt) := by
  have h := compress_ignores_empty_buffer baseEnv optsGzip "req" [] baseSt baseSt
  have h2 := compress_ignores_empty_buffer baseEnv baseOptions "req" [] baseSt baseSt
  refine ⟨by decide, ?_, by decide, h.2.1 (by decide), h2.2.2 rfl⟩
  have hc := h.1 (by decide)
  simpa using hc

/-! ## Claim C9 -/

/-- Claim C9: if `Transport.RoundTrip` returns the sentinel
`ErrClientNoResponse`, `callFunc` returns nil without invoking
`Codec.Decode` or any response-body processing (the trace gains only the
round-trip event); any other round-trip error propagates to the caller (the
raw pipeline returns exactly that error, which then passes the deferred
`fixTimeout`). -/
theorem roundTrip_sentinel_no_decode (env : Env) (ctx : Ctx) (req : String) (st : St)
    (cdc : CodecImpl) (reqBuf : Buf) (st1 : St)
    (hc : ctx.opts.codec = some cdc)
    (hp : prepareRequestBuf env cdc ctx.opts req st = (Except.ok reqBuf, st1)) :
    (∀ msg2 dt,
      ctx.opts.transport.roundTrip (ctxView ctx) st1.clock reqBuf
          (effectiveCallOptions ctx.opts) st1.msg =
        (Except.error errClientNoResponse, msg2, dt) →
      callFuncRaw env ctx req st =
        (none, { st1 with
          msg := msg2
          clock := st1.clock + dt
          events := st1.events ++ [Event.roundTripCalled] }) ∧
      ((ctx.opts.fixTimeout = defaultFixTimeout ∨
          ctx.opts.fixTimeout = mayConvert2FullLinkTimeout) →
        (callFunc env ctx req st).1 = none)) ∧
    (∀ e msg2 dt, e ≠ errClientNoResponse →
      ctx.opts.transport.roundTrip (ctxView ctx) st1.clock reqBuf
          (effectiveCallOptions ctx.opts) st1.msg = (Except.error e, msg2, dt) →
      (callFuncRaw env ctx req st).1 = some e) := by
  constructor
  · intro msg2 dt htr
    have hcall : callFuncRaw env ctx req st =
        (none, { st1 with
          msg := msg2
          clock := st1.clock + dt
          events := st1.events ++ [Event.roundTripCalled] }) := by
      simp [callFuncRaw, hc, hp, htr]
    refine ⟨hcall, ?_⟩
    rintro (hfix | hfix) <;>
      simp [callFunc, hcall, hfix, defaultFixTimeout, mayConvert2FullLinkTimeout]
  · intro e msg2 dt hne htr
    simp [callFuncRaw, hc, hp, htr, hne]

theorem roundTrip_sentinel_no_decode_witness :
    callFuncRaw baseEnv ctxNoResp "req" baseSt = (none, stNoResp) ∧
    (callFunc baseEnv ctxNoResp "req" baseSt).1 = none ∧
    (callFuncRaw baseEnv ctxNetErr "req" baseSt).1 =
      some (NewFrameError RetClientNetErr "write: broken pipe") := by
  have h := roundTrip_sentinel_no_decode baseEnv ctxNoResp "req" baseSt idCodec [] stPrep
    rfl (by decide)
  have h2 := roundTrip_sentinel_no_decode baseEnv ctxNetErr "req" baseSt idCodec [] stPrep
    rfl (by decide)
  have ha := h.1 baseMsg 1 (by decide)
  refine ⟨?_, ha.2 (Or.inl rfl), ?_⟩
  · have hh := ha.1
    simpa using hh
  · exact h2.2 (NewFrameError RetClientNetErr "write: broken pipe") baseMsg 1
      (by decide) (by decide)

/-! ## Claim C6 -/

/-- Claim C6: if `Selector.Select` returns an error or a node with an empty
address, `selectorFilter` returns a framework `ClientRouteErr` error (the
per-call `fixTimeout` — identity or the full-link adapter — leaves it
unchanged) without invoking `next` (the result is the same for every `next`,
so no transport round trip happens; the trace gains only the select event)
and without calling `Selector.Report` (no report event is appended). -/
theorem selectFail_routeErr (env : Env) (ctx : Ctx) (req : String)
    (next : ClientHandleFunc) (st : St)
    (hfix : ctx.opts.fixTimeout = defaultFixTimeout ∨
      ctx.opts.fixTimeout = mayConvert2FullLinkTimeout) :
    (∀ s dt,
      ctx.opts.selector.select ctx.opts.endpoint
          (ctx.opts.selectOptions ++ [SelectOption.withContext]) = (Except.error s, dt) →
      selectorFilter env ctx req next st =
        (some (NewFrameError RetClientRouteErr ("client Select: " ++ s)),
         { st with
           clock := st.clock + dt
           events := st.events ++ [Event.selectCalled ctx.opts.endpoint] })) ∧
    (∀ node dt, node.address = "" →
      ctx.opts.selector.select ctx.opts.endpoint
          (ctx.opts.selectOptions ++ [SelectOption.withContext]) = (Except.ok node, dt) →
      selectorFilter env ctx req next st =
        (some (NewFrameError RetClientRouteErr
          ("client Select: node address empty:" ++ nodeString node)),
         { st with
           clock := st.clock + dt
           events := st.events ++ [Event.selectCalled ctx.opts.endpoint] })) := by
  have hfixRoute : ∀ m, ctx.opts.fixTimeout (some (NewFrameError RetClientRouteErr m)) =
      some (NewFrameError RetClientRouteErr m) := by
    intro m
    rcases hfix with h | h <;> rw [h]
    · rfl
    · simp [mayConvert2FullLinkTimeout, NewFrameError, ErrorTypeFramework,
        RetClientRouteErr, RetClientTimeout]
  constructor
  · intro s dt hsel
    simp [selectorFilter, selectorFilterSetup, selectNode, getNode, hsel, hfixRoute]
  · intro node dt haddr hsel
    simp [selectorFilter, selectorFilterSetup, selectNode, getNode, hsel, haddr, hfixRoute]

theorem selectFail_routeErr_witness :
    selectorFilter baseEnv ctxFail "req" (callFunc baseEnv) baseSt =
      (some (NewFrameError RetClientRouteErr "client Select: selector down"),
       { msg := baseMsg, clock := 1, events := [Event.selectCalled "svcA"] }) ∧
    selectorFilter baseEnv ctxEmptyAddr "req" (callFunc baseEnv) baseSt =
      (some (NewFrameError RetClientRouteErr
        ("client Select: node address empty:" ++ nodeString { serviceName := "svcA" })),
       { msg := baseMsg, clock := 1, events := [Event.selectCalled "svcA"] }) := by
  have h := selectFail_routeErr baseEnv ctxFail "req" (callFunc baseEnv) baseSt (Or.inl rfl)
  have h2 := selectFail_routeErr baseEnv ctxEmptyAddr "req" (callFunc baseEnv) baseSt
    (Or.inl rfl)
  constructor
  · have hh := h.1 "selector down" 1 (by decide)
    simpa using hh
  · have hh := h2.2 { serviceName := "svcA" } 1 rfl (by decide)
    simpa using hh

/-! ## Claim C2 -/

/-- Claim C2 (amended): for every call through `selectorFilter` in which
node selection succeeds, `Selector.Report` is invoked exactly once (provided
`next` itself does not report), with the cost measured around `next`; the
report event is appended to the trace after all of `next`'s events and
before the filter returns; and the reported error is non-nil iff the error
from `next` is a framework error of kind `ClientConnectFail`,
`ClientTimeout` or `ClientNetErr`, or it is non-nil and
`Options.shouldErrReportToSelector` holds of it. -/
theorem report_once_after_next (env : Env) (ctx : Ctx) (req : String)
    (next : ClientHandleFunc) (st : St) (node : Node) (ctx1 : Ctx) (st1 : St)
    (err : GoError) (st2 : St)
    (hsetup : selectorFilterSetup env ctx st = (Except.ok node, ctx1, st1))
    (hnext : next ctx1 req st1 = (err, st2))
    (hpure : reportsOf st2.events = reportsOf st1.events) :
    selectorFilter env ctx req next st =
      ((reportDecision ctx1.opts err (st2.clock - st1.clock)).1,
       { st2 with events := st2.events ++
          [Event.reportCalled node (st2.clock - st1.clock)
             (reportDecision ctx1.opts err (st2.clock - st1.clock)).2,
           Event.nodeInfoSet (reportAddr node st2) (st2.clock - st1.clock)] }) ∧
    reportsOf (selectorFilter env ctx req next st).2.events =
      reportsOf st.events ++
        [(node, st2.clock - st1.clock,
          (reportDecision ctx1.opts err (st2.clock - st1.clock)).2)] ∧
    ((reportDecision ctx1.opts err (st2.clock - st1.clock)).2 ≠ none ↔
      (isNetworkFrameErr err = true ∨
        (err ≠ none ∧ ctx1.opts.shouldErrReportToSelector err = true))) := by
  have hmain : selectorFilter env ctx req next st =
      ((reportDecision ctx1.opts err (st2.clock - st1.clock)).1,
       { st2 with events := st2.events ++
          [Event.reportCalled node (st2.clock - st1.clock)
             (reportDecision ctx1.opts err (st2.clock - st1.clock)).2,
           Event.nodeInfoSet (reportAddr node st2) (st2.clock - st1.clock)] }) := by
    simp only [selectorFilter, hsetup, hnext]
  have hst1 : st1.events = st.events ++ [Event.selectCalled ctx.opts.endpoint] := by
    have h := selectorFilterSetup_events env ctx st
    rw [hsetup] at h
    exact h
  have hiff : (reportDecision ctx1.opts err (st2.clock - st1.clock)).2 ≠ none ↔
      (isNetworkFrameErr err = true ∨
        (err ≠ none ∧ ctx1.opts.shouldErrReportToSelector err = true)) := by
    unfold reportDecision
    by_cases hn : isNetworkFrameErr err = true
    · rw [if_pos hn]
      cases err with
      | none => simp [isNetworkFrameErr] at hn
      | some g =>
        cases g with
        | errsErr fe => simp [augmentCost, hn]
        | other s => simp [isNetworkFrameErr] at hn
    · rw [if_neg hn]
      by_cases hp : ctx1.opts.shouldErrReportToSelector err = true
      · rw [if_pos hp]
        cases err <;> simp [hn, hp]
      · rw [if_neg hp]
        simp [hn, hp]
  have hrep : reportsOf (st2.events ++
      [Event.reportCalled node (st2.clock - st1.clock)
         (reportDecision ctx1.opts err (st2.clock - st1.clock)).2,
       Event.nodeInfoSet (reportAddr node st2) (st2.clock - st1.clock)]) =
      reportsOf st.events ++
        [(node, st2.clock - st1.clock,
          (reportDecision ctx1.opts err (st2.clock - st1.clock)).2)] := by
    rw [reportsOf_append, hpure, hst1, reportsOf_selectCalled]
    rfl
  refine ⟨hmain, ?_, hiff⟩
  rw [hmain]
  exact hrep

theorem report_once_after_next_witness :
    selectorFilter baseEnv baseCtx "req" (callFunc baseEnv) baseSt =
      ((reportDecision ctxAfterSelect.opts none (stAfterNext.clock - stAfterSelect.clock)).1,
       { stAfterNext with events := stAfterNext.events ++
          [Event.reportCalled okNode (stAfterNext.clock - stAfterSelect.clock)
             (reportDecision ctxAfterSelect.opts none
               (stAfterNext.clock - stAfterSelect.clock)).2,
           Event.nodeInfoSet (reportAddr okNode stAfterNext)
             (stAfterNext.clock - stAfterSelect.clock)] }) ∧
    reportsOf (selectorFilter baseEnv baseCtx "req" (callFunc baseEnv) baseSt).2.events =
      reportsOf baseSt.events ++
        [(okNode, stAfterNext.clock - stAfterSelect.clock,
          (reportDecision ctxAfterSelect.opts none
            (stAfterNext.clock - stAfterSelect.clock)).2)] ∧
    ((reportDecision ctxAfterSelect.opts none
        (stAfterNext.clock - stAfterSelect.clock)).2 ≠ none ↔
      (isNetworkFrameErr none = true ∨
        ((none : GoError) ≠ none ∧
          ctxAfterSelect.opts.shouldErrReportToSelector none = true))) :=
  report_once_after_next baseEnv baseCtx "req" (callFunc baseEnv) baseSt okNode
    ctxAfterSelect stAfterSelect none stAfterNext rfl (by decide) (by decide)

/-- Claim C2 counterexample, refuting the claim as stated on two concrete
runs: (i) a call that enters `selectorFilter` but whose selector fails
invokes `Selector.Report` zero times, not exactly once; (ii) with a user
predicate that holds of the nil error, the error from `next` is nil and the
predicate holds of it — the claim's right-hand side — yet the reported error
is nil, so the stated iff fails. -/
theorem report_claim_counterexample :
    reportsOf (selectorFilter baseEnv ctxFail "req" (callFunc baseEnv) baseSt).2.events
      = [] ∧
    reportsOf (selectorFilter baseEnv ctxPred "req" (callFunc baseEnv) baseSt).2.events
      = [(okNode, 1, (none : GoError))] ∧
    ctxPred.opts.shouldErrReportToSelector none = true := by
  refine ⟨by decide, by decide, rfl⟩

/-! ## Claim C1 -/

/-- Claim C1 (amended): every value returned from `callFunc` — errors and
nil alike — is the image under the per-call `fixTimeout` adapter of the raw
pipeline result (the deferred adapter wraps every return, covering the byte
pipeline), and a node-selection error returned by `selectorFilter` is
likewise passed through `fixTimeout`; an error fabricated by another
interceptor in the filter chain, however, can be returned from `Invoke`
without passing through `fixTimeout`. -/
theorem fixTimeout_on_pipeline_errors (env : Env) (ctx : Ctx) (req : String) (st : St) :
    (callFunc env ctx req st).1 = ctx.opts.fixTimeout (callFuncRaw env ctx req st).1 ∧
    (∀ next e ctx1 st1,
      selectorFilterSetup env ctx st = (Except.error e, ctx1, st1) →
      selectorFilter env ctx req next st = (ctx.opts.fixTimeout (some e), st1)) := by
  constructor
  · rcases hr : callFuncRaw env ctx req st with ⟨e, s⟩
    simp [callFunc, hr]
  · intro next e ctx1 st1 hsetup
    have hf : ctx1.opts.fixTimeout = ctx.opts.fixTimeout := by
      have h := selectorFilterSetup_fixTimeout env ctx st
      rw [hsetup] at h
      exact h
    simp [selectorFilter, hsetup, hf]

theorem fixTimeout_on_pipeline_errors_witness :
    (callFunc baseEnv ctxFail "req" baseSt).1 =
      ctxFail.opts.fixTimeout (callFuncRaw baseEnv ctxFail "req" baseSt).1 ∧
    selectorFilter baseEnv ctxFail "req" (callFunc baseEnv) baseSt =
      (ctxFail.opts.fixTimeout (some routeDownErr), stAfterSelect) := by
  have h := fixTimeout_on_pipeline_errors baseEnv ctxFail "req" baseSt
  exact ⟨h.1, h.2 (callFunc baseEnv) routeDownErr ctxFailAfter stAfterSelect rfl⟩

/-- Claim C1 counterexample: with a full-link deadline present and
`Options.Timeout ≤ 0`, `Invoke` installs `mayConvert2FullLinkTimeout` as the
per-call `fixTimeout` (cf. `timeoutStep_fullLink_fixer`); yet a user
interceptor that short-circuits with a fabricated framework `ClientTimeout`
error makes `Invoke` return that error as-is, and no input of that adapter
maps to it — so the returned error was never passed through the per-call
`fixTimeout`, refuting the claim for errors produced by interceptors. -/
theorem fixTimeout_claim_counterexample :
    (Invoke baseEnv fabUf deadlineCtx "req" [userFilterOpt] baseSt).1 = some fabErr ∧
    deadlineCtx.deadline = some 10 ∧ baseOptions.timeout ≤ 0 ∧
    (∀ e, mayConvert2FullLinkTimeout e ≠ some fabErr) := by
  refine ⟨by decide, rfl, by decide, ?_⟩
  intro e
  cases e with
  | none => simp [mayConvert2FullLinkTimeout]
  | some g =>
    cases g with
    | other s => simp [mayConvert2FullLinkTimeout, fabErr]
    | errsErr fe =>
      simp only [mayConvert2FullLinkTimeout]
      by_cases h : fe.etype = ErrorTypeFramework ∧ fe.code = RetClientTimeout
      · rw [if_pos h]
        simp [fabErr, fabFrame, RetClientFullLinkTimeout, RetClientTimeout, ErrorTypeFramework]
      · rw [if_neg h]
        intro heq
        apply h
        have hfe : fe = fabFrame := by
          simpa [fabErr] using heq
        rw [hfe]
        exact ⟨rfl, rfl⟩

/-! ## Whole-pipeline sanity run -/

/-- Running the whole invoker on the base fixtures: a successful call that
selects, encodes, round-trips, decodes and reports a nil error, in that
order. -/
example :
    Invoke baseEnv passUf baseCtx "req" [] baseSt =
      (none,
       { msg := baseMsg, rspBody := "", clock := 2,
         events := [Event.selectCalled "svcA", Event.encodeCalled, Event.roundTripCalled,
                    Event.decodeCalled, Event.reportCalled okNode 1 none,
                    Event.nodeInfoSet "10.0.0.1:8000" 1] }) := by decide

end TrpcClient
